import Mathlib

/-!
Verification of the document evolution and conflict engine of the
`bamr87/githubai` repository: `apps/prd_machine/services/core.py`
(`PRDMachineService`) together with its data model
`apps/prd_machine/models.py` (`PRDState`, `PRDVersion`, `PRDConflict`,
`PRDExport`).

Modelling conventions:
* Python strings are embedded as `List Char` (abbreviated `Str`), with the
  Python `str` primitives the service uses (`split` on a one-character
  separator, `strip`, `startswith`, `lower`, substring membership and
  counting, `int(...)` conversion) re-implemented by structural recursion
  so every definition is executable and kernel-reducible.
* The Django ORM store is an explicit `Store` record holding the rows of
  the four tables; `objects.create` appends a row, `save()` upserts the
  state row (recomputing the content hash exactly as the overridden
  `PRDState.save` does), and `order_by('-created_at').first()` over a
  state's versions is the last element of its creation-ordered row list.
* The two external collaborators are oracles: the text-generation
  transformer (`AIService.call_ai_chat`) is a list of per-call results
  consumed in call order, the content source (`fetch_file_contents`) is a
  function from (repo, path) to a result, and the issue-tracker sink
  (`create_github_issue`) is a list of per-call results.  A raised Python
  exception is the `exn` constructor; prompt text is opaque to the engine's
  state semantics, so prompt construction is not reproduced.
* `hashlib.sha256(content.encode()).hexdigest()` is embedded as an
  abstract deterministic fingerprint (`sha256hex`); the engine only ever
  compares digests for equality.
-/

/-- A Python string, embedded as its list of characters. -/
abbrev Str := List Char

/-- Coerce a Lean string literal to the `List Char` embedding. -/
def str (s : String) : Str := s.data

/-- The result of running a piece of Python code: a value, or a raised
exception carried as its message. -/
inductive PyResult (α : Type) where
  | ok : α → PyResult α
  | exn : Str → PyResult α
deriving DecidableEq

/-- Model of `hashlib.sha256(s.encode()).hexdigest()`: an abstract
deterministic fingerprint.  The service compares digests only for
equality, so an injective tagging stand-in is adequate; like a real
hex digest, it is never the empty string. -/
def sha256hex (s : Str) : Str := str "sha256:" ++ s

/-- Python `s.split(sep)` for a one-character separator: split at every
occurrence, keeping empty pieces (so the result is never empty). -/
def pySplitC (sep : Char) : Str → List Str
  | [] => [[]]
  | c :: cs =>
    let r := pySplitC sep cs
    if c = sep then [] :: r
    else
      match r with
      | [] => [[c]]
      | h :: t => (c :: h) :: t

/-- The whitespace characters stripped by Python `str.strip()` (ASCII
subset; the engine only ever strips transformer responses). -/
def isPySpace (c : Char) : Bool :=
  c = ' ' || c = '\t' || c = '\n' || c = '\r' || c = '\x0b' || c = '\x0c'

/-- Python `s.strip()`. -/
def pyStripC (s : Str) : Str :=
  ((s.dropWhile isPySpace).reverse.dropWhile isPySpace).reverse

/-- Python `s.startswith(p)` (first argument is the candidate leading
piece). -/
def pyStartsWithC : Str → Str → Bool
  | [], _ => true
  | _ :: _, [] => false
  | p :: ps, c :: cs => p = c && pyStartsWithC ps cs

/-- Python `s.lower()` (ASCII letters, which is all the engine compares). -/
def pyLowerC (s : Str) : Str := s.map Char.toLower

/-- Python `needle in hay` substring membership. -/
def containsSub (needle : Str) : Str → Bool
  | [] => needle = []
  | c :: cs => pyStartsWithC needle (c :: cs) || containsSub needle cs

/-- Python `hay.count(needle)` for a needle that cannot overlap itself
(such as `"STORY|"`), counted as the number of positions where the needle
starts. -/
def countSub (needle : Str) : Str → Nat
  | [] => 0
  | c :: cs => (if pyStartsWithC needle (c :: cs) then 1 else 0) + countSub needle cs

/-- Digit-string accumulator for `pyInt?`: digits with single underscores
allowed between digits, as Python `int()` accepts.  The boolean records
whether the previous character was a digit. -/
def parseDigitsUAux : Nat → Bool → Str → Option Nat
  | acc, true, [] => some acc
  | _, false, [] => none
  | acc, last, c :: cs =>
    if c.isDigit then parseDigitsUAux (acc * 10 + (c.toNat - 48)) true cs
    else if c = '_' then (if last then parseDigitsUAux acc false cs else none)
    else none

/-- Parse a nonempty unsigned decimal digit run (Python `int()` body). -/
def parseDigitsU (cs : Str) : Option Nat := parseDigitsUAux 0 false cs

/-- Model of Python `int(s)` on a decimal string: surrounding whitespace
stripped, optional sign, then a nonempty digit run; `none` models the
raised `ValueError`. -/
def pyInt? (s : Str) : Option Int :=
  match pyStripC s with
  | '-' :: rest => (parseDigitsU rest).map (fun n => -(n : Int))
  | '+' :: rest => (parseDigitsU rest).map (fun n => (n : Int))
  | cs => (parseDigitsU cs).map (fun n => (n : Int))

/-- Decimal digits of a natural number, fuel-driven so that it reduces in
the kernel. -/
def natReprAux : Nat → Nat → Str → Str
  | 0, _, acc => acc
  | fuel + 1, n, acc =>
    let acc' := Char.ofNat (48 + n % 10) :: acc
    if n < 10 then acc' else natReprAux fuel (n / 10) acc'

/-- Decimal representation of a natural number (Python `str(n)`). -/
def natRepr (n : Nat) : Str := natReprAux (n + 1) n []

/-- Decimal representation of an integer (Python `str(i)` / f-string
interpolation of an `int`). -/
def intRepr : Int → Str
  | .ofNat n => natRepr n
  | .negSucc n => '-' :: natRepr (n + 1)

/-- Modelled from the spec: the `documentType` and `parentDocument`
fields of DocumentState (spec section 3).  The service
(`get_or_create_document_state`, `sync_readme_from_prd`) and the test
suite (`test_prd_machine.py`) read and write these two `PRDState` fields,
but the copy of `models.py` under `src/` does not declare them; they are
modelled here following the spec: `documentType` is an enum tag over
{canonical, derived} document kinds (`'prd'`, `'readme'`, `'ip'`), and
`parentDocument` is a nullable reference to the canonical state. -/
structure DocMeta where
  document_type : Str := str "prd"
  parent_document : Option Nat := none
deriving DecidableEq

/-- Row of the `PRDState` table (`apps/prd_machine/models.py`), the
mutable head of one logical document.  `id` is the ORM primary key;
identity is unique on (`repo`, `file_path`).  Timestamps are drawn from
the store's logical clock. -/
structure PRDState where
  id : Nat
  repo : Str
  file_path : Str
  content : Str
  content_hash : Str
  version : Str
  meta : DocMeta
  is_locked : Bool
  auto_evolve : Bool
  last_distilled_at : Option Nat
  last_synced_at : Option Nat
  last_aligned_at : Option Nat
deriving DecidableEq

/-- Row of the `PRDVersion` table: an immutable snapshot owned by the
state row `prd_state_id`. -/
structure PRDVersionRow where
  prd_state_id : Nat
  version : Str
  content : Str
  content_hash : Str
  change_summary : Str
  trigger_type : Str
  trigger_ref : Str
  is_human_edit : Bool
deriving DecidableEq

/-- Row of the `PRDConflict` table: one detected inconsistency. -/
structure PRDConflictRow where
  prd_state_id : Nat
  conflict_type : Str
  severity : Str
  section_affected : Str
  description : Str
  suggested_resolution : Str
  resolved : Bool
deriving DecidableEq

/-- Row of the `PRDExport` table: the record of one export invocation.
`stories_parsed` is the `details={'stories_parsed': ...}` payload. -/
structure PRDExportRow where
  prd_state_id : Nat
  prd_version : Option PRDVersionRow
  export_type : Str
  items_created : Nat
  github_refs : List Nat
  stories_parsed : Nat
deriving DecidableEq

/-- The Django ORM database: the rows of the four tables, the next free
primary key, and a logical clock for `timezone.now()`.  Version, conflict
and export rows are kept in creation order, so Django's
`order_by('-created_at').first()` is the last element of the filtered
list. -/
structure Store where
  states : List PRDState
  versions : List PRDVersionRow
  conflicts : List PRDConflictRow
  exports : List PRDExportRow
  nextId : Nat
  now : Nat
deriving DecidableEq

/-- A store holding no rows at all. -/
def emptyStore : Store :=
  { states := [], versions := [], conflicts := [], exports := [], nextId := 0, now := 0 }

/-- `PRDState.objects.get(repo=..., file_path=...)` as an option. -/
def Store.findState (store : Store) (repo path : Str) : Option PRDState :=
  store.states.find? (fun s => decide (s.repo = repo ∧ s.file_path = path))

/-- Lookup of a state row by primary key. -/
def Store.stateById (store : Store) (i : Nat) : Option PRDState :=
  store.states.find? (fun s => decide (s.id = i))

/-- `state.versions.all()` in creation order. -/
def Store.versionsOf (store : Store) (sid : Nat) : List PRDVersionRow :=
  store.versions.filter (fun v => decide (v.prd_state_id = sid))

/-- `state.versions.first()` under the model's `-created_at` ordering:
the most recently created version row of the state, if any. -/
def Store.latestVersion (store : Store) (sid : Nat) : Option PRDVersionRow :=
  (store.versionsOf sid).getLast?

/-- `state.versions.filter(is_human_edit=False).order_by('-created_at')
.first()`: the newest machine-authored version row of the state. -/
def Store.latestMachineVersion (store : Store) (sid : Nat) : Option PRDVersionRow :=
  ((store.versionsOf sid).filter (fun v => !v.is_human_edit)).getLast?

/-- `PRDVersion.objects.create(...)`: append one immutable version row. -/
def Store.addVersion (store : Store) (v : PRDVersionRow) : Store :=
  { store with versions := store.versions ++ [v] }

/-- The overridden `PRDState.save` of `models.py` lines 49-54 followed by
the ORM write: the content hash is recomputed from `content` only when
`content` is non-empty (Python truthiness of `self.content`), then the
row is updated in place (or inserted if new).  Returns the row as
persisted. -/
def PRDState.save (store : Store) (s : PRDState) : PRDState × Store :=
  let s' := if s.content = [] then s else { s with content_hash := sha256hex s.content }
  let states :=
    if store.states.any (fun t => decide (t.id = s'.id)) then
      store.states.map (fun t => if t.id = s'.id then s' else t)
    else
      store.states ++ [s']
  (s', { store with states := states })

/-- The fresh `PRDState` row built by `get_or_create` defaults: version
`"1.0.0"`, `auto_evolve=True`, everything else at model defaults (empty
content and hash, unlocked). -/
def newState (id : Nat) (repo path docType : Str) : PRDState :=
  { id := id, repo := repo, file_path := path, content := [], content_hash := [],
    version := str "1.0.0", meta := { document_type := docType, parent_document := none },
    is_locked := false, auto_evolve := true,
    last_distilled_at := none, last_synced_at := none, last_aligned_at := none }

/-- `PRDMachineService.get_or_create_document_state` (core.py 748-775):
`PRDState.objects.get_or_create` on (repo, file_path) with defaults
`document_type`, `version='1.0.0'`, `auto_evolve=True`. -/
def get_or_create_document_state (repo file_path document_type : Str) (store : Store) :
    PRDState × Store :=
  match store.findState repo file_path with
  | some s => (s, store)
  | none =>
    let s := newState store.nextId repo file_path document_type
    (s, { store with states := store.states ++ [s], nextId := store.nextId + 1 })

/-- `PRDMachineService.get_or_create_prd_state` (core.py 48-69): the
canonical-document variant of get-or-create. -/
def get_or_create_prd_state (repo file_path : Str) (store : Store) : PRDState × Store :=
  get_or_create_document_state repo file_path (str "prd") store

/-- The transformer oracle: the sequence of results that successive
`AIService.call_ai_chat` calls return, in call order. -/
abbrev AiOracle := List (PyResult Str)

/-- The issue-tracker sink oracle: the sequence of results (created issue
numbers or raised errors) that successive
`GitHubService.create_github_issue` calls return, in call order. -/
abbrev SinkOracle := List (PyResult Nat)

/-- Consume one transformer call: return the generated text and the
remaining oracle, or propagate the call's raised error. -/
def callAi : AiOracle → PyResult (Str × AiOracle)
  | [] => .exn (str "transformer unavailable")
  | .ok r :: rest => .ok (r, rest)
  | .exn e :: _ => .exn e

/-- `PRDMachineService._generate_change_summary` (core.py 716-733):
`"Initial version"` without a transformer call when there was no prior
content, otherwise one transformer call whose prompt embeds the old and
new content (prompt text opaque here). -/
def generate_change_summary (ai : AiOracle) (old_content _new_content : Str) :
    PyResult (Str × AiOracle) :=
  if old_content = [] then .ok (str "Initial version", ai)
  else callAi ai

/-- `PRDMachineService._increment_version` (core.py 735-742): split on
`'.'`; anything but exactly three pieces becomes `"1.0.1"`; otherwise the
major/minor pieces pass through as strings verbatim and the patch piece
goes through `int(...)` (raising `ValueError` on a non-integer piece)
and is incremented. -/
def increment_version (version : Str) : PyResult Str :=
  match pySplitC '.' version with
  | [major, minor, patch] =>
    match pyInt? patch with
    | some p => .ok (major ++ str "." ++ minor ++ str "." ++ intRepr (p + 1))
    | none => .exn (str "ValueError: invalid literal for int")
  | _ => .ok (str "1.0.1")

/-- `PRDMachineService._validate_prd_structure` (core.py 698-708): logs a
warning per missing required section but always returns the content
unchanged. -/
def validate_prd_structure (content : Str) : Str := content

/-- `PRDMachineService.sync_from_github` (core.py 71-116).  Get-or-create
the state, fetch the file (a raised fetch error propagates after the
get-or-create is already committed), and if the fetched content's hash
differs from the stored hash: write the state (content, `last_synced_at`,
recomputed hash), then compute the change summary (one transformer call
when prior content existed — raised after the state write is committed),
then append the version row.  An identical hash changes nothing. -/
def sync_from_github (fetch : Str → Str → PyResult Str) (ai : AiOracle)
    (repo file_path : Str) (store : Store) : PyResult (PRDState × AiOracle) × Store :=
  let gc := get_or_create_prd_state repo file_path store
  let state := gc.1
  let store := gc.2
  match fetch repo file_path with
  | .exn e => (.exn e, store)
  | .ok content =>
    let new_hash := sha256hex content
    if new_hash = state.content_hash then (.ok (state, ai), store)
    else
      let old_content := state.content
      let sv := PRDState.save store
        { state with content := content, last_synced_at := some store.now }
      let state := sv.1
      let store := sv.2
      match (if old_content = [] then .ok (str "Initial sync", ai)
             else generate_change_summary ai old_content content) with
      | .exn e => (.exn e, store)
      | .ok (summary, ai) =>
        let store := store.addVersion
          { prd_state_id := state.id, version := state.version, content := content,
            content_hash := new_hash, change_summary := summary,
            trigger_type := str "manual_sync",
            trigger_ref := str "Synced from GitHub", is_human_edit := false }
        (.ok (state, ai), store)

/-- `PRDMachineService.distill_prd` (core.py 118-175).  Repository
context gathering swallows every fetch error and has no store effect, so
it is elided; then: one transformer call (distillation), structure
validation (identity on the content), patch-increment of the version
(`int` conversion may raise before anything is written), the state write,
the change-summary transformer call (raised after the state write is
committed when prior content existed), and finally the version row. -/
def distill_prd (ai : AiOracle) (prd_state : PRDState)
    (trigger_type trigger_ref : Str) (store : Store) :
    PyResult (PRDState × AiOracle) × Store :=
  match callAi ai with
  | .exn e => (.exn e, store)
  | .ok (evolved_content, ai) =>
    let validated_content := validate_prd_structure evolved_content
    let old_content := prd_state.content
    match increment_version prd_state.version with
    | .exn e => (.exn e, store)
    | .ok new_version =>
      let sv := PRDState.save store
        { prd_state with
          content := validated_content,
          last_distilled_at := some store.now,
          version := new_version }
      let prd_state := sv.1
      let store := sv.2
      match generate_change_summary ai old_content validated_content with
      | .exn e => (.exn e, store)
      | .ok (summary, ai) =>
        let store := store.addVersion
          { prd_state_id := prd_state.id, version := prd_state.version,
            content := validated_content, content_hash := prd_state.content_hash,
            change_summary := summary, trigger_type := trigger_type,
            trigger_ref := trigger_ref, is_human_edit := false }
        (.ok (prd_state, ai), store)

/-- `PRDMachineService.generate_prd_from_scratch` (core.py 177-234): one
transformer call, then get-or-create, the state write with version
`"1.0.0"`, and one `initial` version row (the change summary is a literal
here, no second transformer call). -/
def generate_prd_from_scratch (ai : AiOracle) (repo file_path : Str) (store : Store) :
    PyResult (PRDState × AiOracle) × Store :=
  match callAi ai with
  | .exn e => (.exn e, store)
  | .ok (prd_content, ai) =>
    let validated_content := validate_prd_structure prd_content
    let gc := get_or_create_prd_state repo file_path store
    let sv := PRDState.save gc.2
      { gc.1 with
        content := validated_content,
        version := str "1.0.0",
        last_distilled_at := some gc.2.now }
    let state := sv.1
    let store := sv.2
    let store := store.addVersion
      { prd_state_id := state.id, version := str "1.0.0", content := validated_content,
        content_hash := state.content_hash,
        change_summary := str "Initial PRD generation from repository analysis",
        trigger_type := str "initial", trigger_ref := str "Generated", is_human_edit := false }
    (.ok (state, ai), store)

/-- One line of the conflict-detection parse loop (core.py 290-302): a
line becomes a `PRDConflict` row exactly when it starts with `CONFLICT|`
and splits on `'|'` into at least six fields; fields 1-5 are stored
verbatim (`conflict_type`, `severity`, `section_affected`, `description`,
`suggested_resolution`), with no validation of the severity value. -/
def conflict_row_of_line (sid : Nat) (line : Str) : Option PRDConflictRow :=
  if pyStartsWithC (str "CONFLICT|") line then
    match pySplitC '|' line with
    | _ :: p1 :: p2 :: p3 :: p4 :: p5 :: _ =>
      some { prd_state_id := sid, conflict_type := p1, severity := p2,
             section_affected := p3, description := p4, suggested_resolution := p5,
             resolved := false }
    | _ => none
  else none

/-- `PRDMachineService.detect_conflicts` (core.py 240-305): empty content
short-circuits to an empty list; otherwise one transformer call, then the
stripped response is split into lines and each parsed line is persisted
as one conflict row, in order. -/
def detect_conflicts (ai : AiOracle) (prd_state : PRDState) (store : Store) :
    PyResult (List PRDConflictRow × AiOracle) × Store :=
  if prd_state.content = [] then (.ok ([], ai), store)
  else
    match callAi ai with
    | .exn e => (.exn e, store)
    | .ok (response, ai) =>
      let rows := (pySplitC '\n' (pyStripC response)).filterMap
        (conflict_row_of_line prd_state.id)
      (.ok (rows, ai), { store with conflicts := store.conflicts ++ rows })

/-- One line of the drift parse loop (core.py 1027-1039): a line becomes
a `PRDConflict` row exactly when it starts with `DRIFT|` and splits on
`'|'` into at least six fields `DRIFT, source, target, severity, section,
description`; `section_affected` is formatted `"source↔target: section"`
and `conflict_type` is `version_mismatch` when the lowered section
mentions `version`, else `other`. -/
def drift_row_of_line (sid : Nat) (line : Str) : Option PRDConflictRow :=
  if pyStartsWithC (str "DRIFT|") line then
    match pySplitC '|' line with
    | _ :: p1 :: p2 :: p3 :: p4 :: p5 :: _ =>
      some { prd_state_id := sid,
             conflict_type :=
               if containsSub (str "version") (pyLowerC p4) then str "version_mismatch"
               else str "other",
             severity := p3,
             section_affected := p1 ++ str "↔" ++ p2 ++ str ": " ++ p4,
             description := p5,
             suggested_resolution := str "Sync " ++ p2 ++ str " from " ++ p1,
             resolved := false }
    | _ => none
  else none

/-- `PRDMachineService.detect_document_drift` (core.py 967-1042):
get-or-create the canonical PRD state and the two derived states, fetch
the three documents (any fetch error is logged and yields the empty
list), make one transformer call over the three bodies, and persist one
conflict row per parsed drift line, owned by the canonical state. -/
def detect_document_drift (fetch : Str → Str → PyResult Str) (ai : AiOracle)
    (repo : Str) (store : Store) : PyResult (List PRDConflictRow × AiOracle) × Store :=
  let g1 := get_or_create_prd_state repo (str "PRD.md") store
  let prd_state := g1.1
  let g2 := get_or_create_document_state repo (str "README.md") (str "readme") g1.2
  let g3 := get_or_create_document_state repo (str "IP.md") (str "ip") g2.2
  let store := g3.2
  match fetch repo (str "PRD.md"), fetch repo (str "README.md"), fetch repo (str "IP.md") with
  | .ok _, .ok _, .ok _ =>
    match callAi ai with
    | .exn e => (.exn e, store)
    | .ok (response, ai) =>
      let rows := (pySplitC '\n' (pyStripC response)).filterMap
        (drift_row_of_line prd_state.id)
      (.ok (rows, ai), { store with conflicts := store.conflicts ++ rows })
  | _, _, _ => (.ok ([], ai), store)

/-- One structured item of the export parse loop (core.py 419-425): a
line yields an item exactly when it starts with `STORY|` and splits on
`'|'` into at least three fields; the priority label defaults to `P1`
when absent. -/
structure Story where
  title : Str
  description : Str
  priority : Str
deriving DecidableEq

/-- Parse one line of the transformer's story output. -/
def story_of_line (line : Str) : Option Story :=
  if pyStartsWithC (str "STORY|") line then
    match pySplitC '|' line with
    | _ :: p1 :: p2 :: rest =>
      some { title := p1, description := p2,
             priority := match rest with | p3 :: _ => p3 | [] => str "P1" }
    | _ => none
  else none

/-- The issue-creation loop of `export_to_issues` (core.py 418-437): one
sink call per parsed item, in order; a successful call's returned issue
number is collected, a raised call is logged and skipped, and no failure
aborts the remaining items. -/
def create_issues_loop : SinkOracle → List Story → List Nat × SinkOracle
  | sink, [] => ([], sink)
  | [], _ :: rest => create_issues_loop [] rest
  | .ok n :: sink, _ :: rest =>
    let r := create_issues_loop sink rest
    (n :: r.1, r.2)
  | .exn _ :: sink, _ :: rest => create_issues_loop sink rest

/-- `PRDMachineService.export_to_issues` (core.py 385-450): the MVP
section extraction feeds only the (opaque) transformer prompt; then one
transformer call, the issue-creation loop over the parsed story lines,
and always exactly one `PRDExport` row recording the successful issue
numbers, their count, and the raw `STORY|` occurrence count. -/
def export_to_issues (ai : AiOracle) (sink : SinkOracle) (prd_state : PRDState)
    (store : Store) : PyResult (PRDExportRow × AiOracle × SinkOracle) × Store :=
  match callAi ai with
  | .exn e => (.exn e, store)
  | .ok (response, ai) =>
    let stories := (pySplitC '\n' (pyStripC response)).filterMap story_of_line
    let cl := create_issues_loop sink stories
    let created_issues := cl.1
    let sink := cl.2
    let exportRow : PRDExportRow :=
      { prd_state_id := prd_state.id,
        prd_version := store.latestVersion prd_state.id,
        export_type := str "issues",
        items_created := created_issues.length,
        github_refs := created_issues,
        stories_parsed := countSub (str "STORY|") response }
    (.ok (exportRow, ai, sink), { store with exports := store.exports ++ [exportRow] })

/-- `PRDMachineService.bump_version` (core.py 503-534): split the stored
version on `'.'`, replace anything but exactly three pieces with
`['1','0','0']`, convert all three pieces with `int(...)` (raising
`ValueError` on a non-integer piece), apply the bump, format the new
version from the parsed integers, persist it, and return it. -/
def bump_version (prd_state : PRDState) (bump_type : Str) (store : Store) :
    PyResult (Str × PRDState) × Store :=
  let parts0 := pySplitC '.' prd_state.version
  let parts := if parts0.length ≠ 3 then [str "1", str "0", str "0"] else parts0
  match parts with
  | [p0, p1, p2] =>
    match pyInt? p0, pyInt? p1, pyInt? p2 with
    | some major, some minor, some patch =>
      let bumped :=
        if bump_type = str "major" then (major + 1, (0 : Int), (0 : Int))
        else if bump_type = str "minor" then (major, minor + 1, (0 : Int))
        else (major, minor, patch + 1)
      let new_version :=
        intRepr bumped.1 ++ str "." ++ intRepr bumped.2.1 ++ str "." ++ intRepr bumped.2.2
      let sv := PRDState.save store { prd_state with version := new_version }
      (.ok (new_version, sv.1), sv.2)
    | _, _, _ => (.exn (str "ValueError: invalid literal for int"), store)
  | _ => (.exn (str "unreachable: len(parts) == 3"), store)

/-- `PRDMachineService.enforce_zero_touch` (core.py 540-569): unlocked
documents always allow; a locked document compares the proposed content's
hash against the newest machine-authored version's stored hash and
rejects on mismatch with a fixed message; with no machine-authored
version (or a matching hash) the write is allowed. -/
def enforce_zero_touch (store : Store) (prd_state : PRDState) (new_content : Str) :
    Bool × Str :=
  if prd_state.is_locked = false then
    (true, str "Edit allowed - zero-touch mode disabled")
  else
    match store.latestMachineVersion prd_state.id with
    | some last_machine_version =>
      if sha256hex new_content ≠ last_machine_version.content_hash then
        (false, str "I got this, meatbag. Zero-touch mode active - reverting human edit.")
      else (true, str "Edit allowed")
    | none => (true, str "Edit allowed")

/-- The origin of a proposed write, spec section 4.3. -/
inductive Origin where
  | machine
  | human
deriving DecidableEq

/-- The lock policy as the engine applies it (spec section 4.3 mapped
onto core.py): `enforce_zero_touch` is invoked exactly where a
human-originated write would otherwise occur, while the engine's own
machine-originated paths (`distill_prd`, `sync_from_github`, ...) write
via `PRDState.save` without ever consulting it — so a machine-origin
write is always allowed. -/
def checkWrite (store : Store) (state : PRDState) (content : Str) : Origin → Bool × Str
  | .machine => (true, str "Edit allowed")
  | .human => enforce_zero_touch store state content

/-! ### Parsing and store lemmas -/

/-- Splitting a string that does not contain the separator yields the
single whole piece. -/
theorem pySplitC_of_not_mem (sep : Char) :
    ∀ xs : Str, sep ∉ xs → pySplitC sep xs = [xs]
  | [], _ => rfl
  | c :: cs, h => by
    have hc : ¬c = sep := fun e => h (e ▸ List.mem_cons_self c cs)
    have hcs : sep ∉ cs := fun m => h (List.mem_cons_of_mem _ m)
    simp [pySplitC, hc, pySplitC_of_not_mem sep cs hcs]

/-- Splitting peels off a separator-free leading piece at the first
separator occurrence. -/
theorem pySplitC_append_sep (sep : Char) :
    ∀ xs ys : Str, sep ∉ xs →
      pySplitC sep (xs ++ sep :: ys) = xs :: pySplitC sep ys
  | [], ys, _ => by simp [pySplitC]
  | c :: cs, ys, h => by
    have hc : ¬c = sep := fun e => h (e ▸ List.mem_cons_self c cs)
    have hcs : sep ∉ cs := fun m => h (List.mem_cons_of_mem _ m)
    simp [pySplitC, hc, pySplitC_append_sep sep cs ys hcs]

/-- A string always starts with its own leading piece. -/
theorem pyStartsWithC_append : ∀ p rest : Str, pyStartsWithC p (p ++ rest) = true
  | [], _ => rfl
  | c :: cs, rest => by simp [pyStartsWithC, pyStartsWithC_append cs rest]

/-- `find?` skips a first chunk in which nothing matches. -/
theorem find?_append_of_none {α : Type} (p : α → Bool) :
    ∀ l1 l2 : List α, l1.find? p = none → (l1 ++ l2).find? p = l2.find? p
  | [], _, _ => rfl
  | a :: as, l2, h => by
    by_cases hpa : p a
    · rw [List.find?_cons_of_pos _ hpa] at h
      exact absurd h (by simp)
    · rw [List.find?_cons_of_neg _ hpa] at h
      rw [List.cons_append, List.find?_cons_of_neg _ hpa]
      exact find?_append_of_none p as l2 h

/-- Get-or-create never touches the version, conflict or export tables
nor the clock. -/
theorem get_or_create_frame (repo path docType : Str) (store : Store) :
    (get_or_create_document_state repo path docType store).2.versions = store.versions
    ∧ (get_or_create_document_state repo path docType store).2.conflicts = store.conflicts
    ∧ (get_or_create_document_state repo path docType store).2.exports = store.exports
    ∧ (get_or_create_document_state repo path docType store).2.now = store.now := by
  unfold get_or_create_document_state
  cases store.findState repo path <;> simp

/-- The last sink result list view of the issue-creation loop: the loop
consumes exactly one sink result per story, keeps the successful issue
numbers in order, and skips the failures. -/
theorem create_issues_loop_eq :
    ∀ (stories : List Story) (sink : SinkOracle),
      create_issues_loop sink stories =
        ((sink.take stories.length).filterMap
            (fun r => match r with | .ok n => some n | .exn _ => none),
          sink.drop stories.length)
  | [], sink => by cases sink <;> simp [create_issues_loop]
  | s :: rest, [] => by
    simp [create_issues_loop, create_issues_loop_eq rest []]
  | s :: rest, .ok n :: sink => by
    simp [create_issues_loop, create_issues_loop_eq rest sink]
  | s :: rest, .exn e :: sink => by
    simp [create_issues_loop, create_issues_loop_eq rest sink]

/-! ### Concrete fixtures used by witnesses and counterexamples -/

/-- A concrete canonical document state with non-empty content and a
consistent hash. -/
def wPrd : PRDState :=
  { id := 0, repo := str "acme/widgets", file_path := str "PRD.md",
    content := str "# PRD", content_hash := sha256hex (str "# PRD"),
    version := str "1.2.3", meta := {}, is_locked := false, auto_evolve := true,
    last_distilled_at := none, last_synced_at := none, last_aligned_at := none }

/-- A concrete machine-authored version row for `wPrd`, with content
`"# PRD"` and a consistent stored hash. -/
def wMachineVersion : PRDVersionRow :=
  { prd_state_id := 0, version := str "1.2.3", content := str "# PRD",
    content_hash := sha256hex (str "# PRD"), change_summary := [],
    trigger_type := str "manual_sync", trigger_ref := [], is_human_edit := false }

/-- A concrete store holding `wPrd` and one machine-authored version. -/
def wStore : Store :=
  { states := [wPrd], versions := [wMachineVersion], conflicts := [], exports := [],
    nextId := 1, now := 5 }

/-- `wPrd` with zero-touch mode enabled. -/
def wLockedPrd : PRDState := { wPrd with is_locked := true }

/-- `wStore` with the locked variant of the state. -/
def wLockedStore : Store := { wStore with states := [wLockedPrd] }

/-! ### C2 — content hash invariant -/

/-- C2 (corrected): after any `PRDState.save` — the single choke point
every engine write path goes through — the persisted row's `content_hash`
equals `sha256hex content` whenever the content is non-empty; when the
content is empty the hash is left at its previous value (the overridden
save skips recomputation for falsy content). -/
theorem save_hash_invariant (store : Store) (s : PRDState) :
    ((PRDState.save store s).1.content ≠ [] →
      (PRDState.save store s).1.content_hash = sha256hex (PRDState.save store s).1.content)
    ∧ ((PRDState.save store s).1.content = [] →
      (PRDState.save store s).1.content_hash = s.content_hash) := by
  unfold PRDState.save
  by_cases h : s.content = [] <;> simp [h]

/-- Witness for `save_hash_invariant` at a concrete non-empty save. -/
theorem save_hash_invariant_witness :
    (PRDState.save emptyStore wPrd).1.content_hash
      = sha256hex (PRDState.save emptyStore wPrd).1.content :=
  (save_hash_invariant emptyStore wPrd).1 (by decide)

/-- C2 counterexample: a state created fresh with empty content (the
`getOrCreate` path the claim explicitly includes) is committed with a
blank `content_hash`, which differs from `hash("")`. -/
theorem contentHash_empty_counterexample :
    (get_or_create_prd_state (str "acme/widgets") (str "PRD.md") emptyStore).1.content = []
    ∧ (get_or_create_prd_state (str "acme/widgets") (str "PRD.md") emptyStore).1.content_hash
      ≠ sha256hex (get_or_create_prd_state (str "acme/widgets") (str "PRD.md") emptyStore).1.content := by
  decide

/-! ### C3 — lock enforcement -/

/-- C3: on a locked document whose newest machine-authored version row is
`v` (stored hash consistent with its content), a human-origin write of
exactly `v`'s content is allowed; a human-origin write of content with a
different hash is rejected with the fixed message (an ordinary return
value, not an exception); a machine-origin write is always allowed; and
on any unlocked document every write is allowed. -/
theorem lock_enforcement (store : Store) (state : PRDState) (v : PRDVersionRow)
    (hlock : state.is_locked = true)
    (hlast : store.latestMachineVersion state.id = some v)
    (hvhash : v.content_hash = sha256hex v.content) :
    (checkWrite store state v.content .human).1 = true
    ∧ (∀ c2 : Str, sha256hex c2 ≠ sha256hex v.content →
        checkWrite store state c2 .human =
          (false, str "I got this, meatbag. Zero-touch mode active - reverting human edit."))
    ∧ (∀ c : Str, (checkWrite store state c .machine).1 = true)
    ∧ (∀ (st : Store) (s : PRDState) (c : Str) (o : Origin),
        s.is_locked = false → (checkWrite st s c o).1 = true) := by
  refine ⟨?_, ?_, ?_, ?_⟩
  · simp [checkWrite, enforce_zero_touch, hlock, hlast, hvhash]
  · intro c2 hne
    simp [checkWrite, enforce_zero_touch, hlock, hlast, hvhash, hne]
  · intro c; rfl
  · intro st s c o hl
    cases o
    · rfl
    · simp [checkWrite, enforce_zero_touch, hl]

/-- Witness for `lock_enforcement` on the concrete locked store. -/
theorem lock_enforcement_witness :
    (checkWrite wLockedStore wLockedPrd (str "# PRD") .human).1 = true
    ∧ checkWrite wLockedStore wLockedPrd (str "# HACKED") .human =
        (false, str "I got this, meatbag. Zero-touch mode active - reverting human edit.")
    ∧ (checkWrite wLockedStore wLockedPrd (str "anything") .machine).1 = true
    ∧ (checkWrite wStore wPrd (str "whatever") .human).1 = true := by
  have h := lock_enforcement wLockedStore wLockedPrd wMachineVersion
    (by decide) (by decide) (by decide)
  exact ⟨h.1, h.2.1 (str "# HACKED") (by decide), h.2.2.1 (str "anything"),
    h.2.2.2 wStore wPrd (str "whatever") .human (by decide)⟩

/-! ### C9 — get-or-create idempotence and defaults -/

/-- C9: calling `get_or_create_prd_state` a second time with the same
(repo, path) returns the very same state row and leaves the store
untouched (no duplicate row); and on an empty store the single created
state has version `"1.0.0"`, `auto_evolve = true`, `is_locked = false`. -/
theorem getOrCreate_idempotent (store : Store) (repo path : Str) :
    (get_or_create_prd_state repo path (get_or_create_prd_state repo path store).2).1
      = (get_or_create_prd_state repo path store).1
    ∧ (get_or_create_prd_state repo path (get_or_create_prd_state repo path store).2).2
      = (get_or_create_prd_state repo path store).2
    ∧ (get_or_create_prd_state repo path emptyStore).1.version = str "1.0.0"
    ∧ (get_or_create_prd_state repo path emptyStore).1.auto_evolve = true
    ∧ (get_or_create_prd_state repo path emptyStore).1.is_locked = false := by
  have hmain :
      (get_or_create_prd_state repo path (get_or_create_prd_state repo path store).2).1
        = (get_or_create_prd_state repo path store).1
      ∧ (get_or_create_prd_state repo path (get_or_create_prd_state repo path store).2).2
        = (get_or_create_prd_state repo path store).2 := by
    unfold get_or_create_prd_state get_or_create_document_state
    cases hfind : store.findState repo path with
    | some s => simp [Store.findState] at hfind ⊢; simp [hfind]
    | none =>
      have hfind' : store.states.find?
          (fun s => decide (s.repo = repo ∧ s.file_path = path)) = none := hfind
      have hnew : Store.findState
          { store with states := store.states ++ [newState store.nextId repo path (str "prd")],
                       nextId := store.nextId + 1 } repo path
          = some (newState store.nextId repo path (str "prd")) := by
        unfold Store.findState
        simp only []
        rw [find?_append_of_none _ _ _ hfind']
        simp [List.find?, newState]
      simp only [Store.findState] at hfind
      simp [hfind, hnew]
  refine ⟨hmain.1, hmain.2, ?_, ?_, ?_⟩ <;>
    simp [get_or_create_prd_state, get_or_create_document_state, Store.findState,
      emptyStore, newState]

/-! ### C10 — locked document with no machine version -/

/-- C10: on a locked (indeed, any) document that has no machine-authored
version row at all, the lock check allows every proposed content from
every origin; and conversely the reject branch is reachable only when a
newest machine-authored version exists. -/
theorem locked_without_machine_version_allows (store : Store) (state : PRDState)
    (hnone : store.latestMachineVersion state.id = none) :
    (∀ (c : Str) (o : Origin), (checkWrite store state c o).1 = true)
    ∧ (∀ (st : Store) (s : PRDState) (c : Str),
        (enforce_zero_touch st s c).1 = false → st.latestMachineVersion s.id ≠ none) := by
  constructor
  · intro c o
    cases o
    · rfl
    · show (enforce_zero_touch store state c).1 = true
      unfold enforce_zero_touch
      by_cases hl : state.is_locked = false <;> simp [hl, hnone]
  · intro st s c h
    unfold enforce_zero_touch at h
    by_cases hl : s.is_locked = false
    · simp [hl] at h
    · simp [hl] at h
      cases hmv : st.latestMachineVersion s.id with
      | none => simp [hmv] at h
      | some v => simp [hmv]

/-- Witness for `locked_without_machine_version_allows` on a locked
state over an empty version table. -/
theorem locked_without_machine_version_allows_witness :
    (checkWrite { wStore with versions := [] } wLockedPrd (str "# ANYTHING") .human).1 = true := by
  have h := locked_without_machine_version_allows { wStore with versions := [] } wLockedPrd
    (by decide)
  exact h.1 (str "# ANYTHING") .human

/-! ### C4 — version bumping -/

/-- The version string a `bump_version` run returns (dropping the
persisted state), or the raised error. -/
def bumpResult (r : PyResult (Str × PRDState) × Store) : PyResult Str :=
  match r.1 with
  | .ok (v, _) => .ok v
  | .exn e => .exn e

/-- C4 (corrected): on a stored version of exactly three dot-separated
integer pieces, `major` returns `(a+1).0.0`, `minor` returns `a.(b+1).0`
and `patch` returns `a.b.(c+1)`; a stored version that does not split
into exactly three pieces is replaced by `1.0.0` before bumping (so a
patch bump returns `1.0.1`); but a version of exactly three pieces of
which some piece is not an integer makes `int(...)` raise `ValueError`
instead of falling back to `1.0.0`. -/
theorem bumpVersion_spec (state : PRDState) (store : Store)
    (xa xb xc : Str) (a b c : Int)
    (hsplit : pySplitC '.' state.version = [xa, xb, xc])
    (ha : pyInt? xa = some a) (hb : pyInt? xb = some b) (hc : pyInt? xc = some c) :
    bumpResult (bump_version state (str "major") store) = .ok (intRepr (a + 1) ++ str ".0.0")
    ∧ bumpResult (bump_version state (str "minor") store)
        = .ok (intRepr a ++ str "." ++ intRepr (b + 1) ++ str ".0")
    ∧ bumpResult (bump_version state (str "patch") store)
        = .ok (intRepr a ++ str "." ++ intRepr b ++ str "." ++ intRepr (c + 1))
    ∧ (∀ st2 : PRDState, (pySplitC '.' st2.version).length ≠ 3 →
        bumpResult (bump_version st2 (str "patch") store) = .ok (str "1.0.1"))
    ∧ (∀ (st2 : PRDState) (bt ya yb yc : Str),
        pySplitC '.' st2.version = [ya, yb, yc] →
        (pyInt? ya = none ∨ pyInt? yb = none ∨ pyInt? yc = none) →
        bumpResult (bump_version st2 bt store)
          = .exn (str "ValueError: invalid literal for int")) := by
  refine ⟨?_, ?_, ?_, ?_, ?_⟩
  · simp only [bump_version, bumpResult, hsplit]
    norm_num [ha, hb, hc]
    decide
  · simp only [bump_version, bumpResult, hsplit]
    norm_num [ha, hb, hc, show ¬(str "minor" = str "major") from by decide]
    decide
  · simp only [bump_version, bumpResult, hsplit]
    norm_num [ha, hb, hc, show ¬(str "patch" = str "major") from by decide,
      show ¬(str "patch" = str "minor") from by decide]
  · intro st2 hlen
    simp only [bump_version, bumpResult]
    rw [if_pos hlen]
    rfl
  · intro st2 bt ya yb yc hsplit2 hnone
    simp only [bump_version, bumpResult, hsplit2]
    norm_num
    cases hA : pyInt? ya <;> cases hB : pyInt? yb <;> cases hC : pyInt? yc <;>
      simp_all

/-- Witness for `bumpVersion_spec` at the concrete version `"1.2.3"`. -/
theorem bumpVersion_spec_witness :
    bumpResult (bump_version wPrd (str "major") emptyStore)
      = .ok (intRepr ((1 : Int) + 1) ++ str ".0.0") :=
  (bumpVersion_spec wPrd emptyStore (str "1") (str "2") (str "3") 1 2 3
    (by decide) (by decide) (by decide) (by decide)).1

/-- C4 counterexample: the version `"1.2.x"` splits into exactly three
dot-separated pieces, so the length-based `1.0.0` fallback does not fire
and `int("x")` raises `ValueError`; the bump does not return `"1.0.1"`
as the claim states for every malformed version. -/
theorem bump_malformed_counterexample :
    bumpResult (bump_version { wPrd with version := str "1.2.x" } (str "patch") emptyStore)
      = .exn (str "ValueError: invalid literal for int") := by decide

/-! ### C6 — no-op sync -/

/-- C6: when the fetched external content hashes identically to the
stored `content_hash`, sync returns the state as loaded, leaves the whole
store exactly as get-or-create left it (in particular the state's
content, hash and version are untouched), and creates no new
`PRDVersion` row. -/
theorem noop_sync (fetch : Str → Str → PyResult Str) (ai : AiOracle)
    (repo path c : Str) (store : Store)
    (hfetch : fetch repo path = .ok c)
    (hhash : sha256hex c = (get_or_create_prd_state repo path store).1.content_hash) :
    sync_from_github fetch ai repo path store
      = (.ok ((get_or_create_prd_state repo path store).1, ai),
         (get_or_create_prd_state repo path store).2)
    ∧ (sync_from_github fetch ai repo path store).2.versions = store.versions := by
  have h1 : sync_from_github fetch ai repo path store
      = (.ok ((get_or_create_prd_state repo path store).1, ai),
         (get_or_create_prd_state repo path store).2) := by
    unfold sync_from_github
    rw [hfetch]
    simp [hhash]
  refine ⟨h1, ?_⟩
  rw [h1]
  exact (get_or_create_frame repo path (str "prd") store).1

/-- Witness for `noop_sync`: syncing `wStore` when the fetch returns the
already-stored content changes nothing. -/
theorem noop_sync_witness :
    sync_from_github (fun _ _ => .ok (str "# PRD")) [] (str "acme/widgets") (str "PRD.md") wStore
      = (.ok ((get_or_create_prd_state (str "acme/widgets") (str "PRD.md") wStore).1, []),
         (get_or_create_prd_state (str "acme/widgets") (str "PRD.md") wStore).2) :=
  (noop_sync (fun _ _ => .ok (str "# PRD")) [] (str "acme/widgets") (str "PRD.md")
    (str "# PRD") wStore rfl (by decide)).1

/-! ### C1 — fail-fast and partial writes on collaborator failure -/

/-- C1 (corrected): when the *primary* transformer or collaborator call
of an operation fails, nothing is committed — distill, generate,
conflict detection and export return the raised error with the store
unchanged, and sync with a failing fetch over an existing state leaves
the store unchanged.  But the change-summary transformer call of distill
and of sync runs *after* the `PRDState` write: when it fails (prior
content non-empty), the mutated state row is already committed while no
`PRDVersion` row is, so the observable state differs from the state
before the operation. -/
theorem operations_fail_fast :
    (∀ (e : Str) (rest : AiOracle) (prd_state : PRDState) (tt tr : Str) (store : Store),
       distill_prd (.exn e :: rest) prd_state tt tr store = (.exn e, store))
    ∧ (∀ (e : Str) (rest : AiOracle) (repo path : Str) (store : Store),
       generate_prd_from_scratch (.exn e :: rest) repo path store = (.exn e, store))
    ∧ (∀ (e : Str) (rest : AiOracle) (prd_state : PRDState) (store : Store),
       prd_state.content ≠ [] →
       detect_conflicts (.exn e :: rest) prd_state store = (.exn e, store))
    ∧ (∀ (e : Str) (rest : AiOracle) (sink : SinkOracle) (prd_state : PRDState)
         (store : Store),
       export_to_issues (.exn e :: rest) sink prd_state store = (.exn e, store))
    ∧ (∀ (fetch : Str → Str → PyResult Str) (ai : AiOracle) (e repo path : Str)
         (s0 : PRDState) (store : Store),
       store.findState repo path = some s0 →
       fetch repo path = .exn e →
       sync_from_github fetch ai repo path store = (.exn e, store))
    ∧ (∀ (content e : Str) (rest : AiOracle) (prd_state : PRDState) (tt tr nv : Str)
         (store : Store),
       store.states = [prd_state] →
       increment_version prd_state.version = .ok nv →
       prd_state.content ≠ [] → content ≠ [] →
       distill_prd (.ok content :: .exn e :: rest) prd_state tt tr store
         = (.exn e,
            { store with states := [{ prd_state with
                content := content, content_hash := sha256hex content,
                version := nv, last_distilled_at := some store.now }] }))
    ∧ (∀ (fetch : Str → Str → PyResult Str) (e repo path c : Str) (rest : AiOracle)
         (s0 : PRDState) (store : Store),
       store.states = [s0] → s0.repo = repo → s0.file_path = path →
       fetch repo path = .ok c →
       sha256hex c ≠ s0.content_hash →
       s0.content ≠ [] → c ≠ [] →
       sync_from_github fetch (.exn e :: rest) repo path store
         = (.exn e,
            { store with states := [{ s0 with
                content := c, content_hash := sha256hex c,
                last_synced_at := some store.now }] })) := by
  refine ⟨?_, ?_, ?_, ?_, ?_, ?_, ?_⟩
  · intro e rest prd_state tt tr store
    rfl
  · intro e rest repo path store
    rfl
  · intro e rest prd_state store hne
    simp [detect_conflicts, hne, callAi]
  · intro e rest sink prd_state store
    rfl
  · intro fetch ai e repo path s0 store hfind hfetch
    unfold sync_from_github get_or_create_prd_state get_or_create_document_state
    rw [hfind]
    simp only []
    rw [hfetch]
  · intro content e rest prd_state tt tr nv store hstore hinc hold hcontent
    unfold distill_prd
    simp only [callAi]
    rw [hinc]
    unfold validate_prd_structure PRDState.save generate_change_summary
    simp [hold, hcontent, callAi, hstore]
  · intro fetch e repo path c rest s0 store hstore hrepo hpath hfetch hne hold hc
    unfold sync_from_github get_or_create_prd_state get_or_create_document_state
    have hfind : store.findState repo path = some s0 := by
      unfold Store.findState
      rw [hstore]
      simp [hrepo, hpath]
    rw [hfind]
    simp only []
    rw [hfetch]
    unfold PRDState.save generate_change_summary
    simp [hne, hold, hc, callAi, hstore]

/-- Witness for `operations_fail_fast`: the change-summary branch at a
fully concrete run. -/
theorem operations_fail_fast_witness :
    distill_prd [.ok (str "# NEW"), .exn (str "boom")] wPrd (str "manual_sync") (str "t") wStore
      = (.exn (str "boom"),
         { wStore with states := [{ wPrd with
             content := str "# NEW", content_hash := sha256hex (str "# NEW"),
             version := str "1.2.4", last_distilled_at := some 5 }] }) :=
  operations_fail_fast.2.2.2.2.2.1 (str "# NEW") (str "boom") []
    wPrd (str "manual_sync") (str "t") (str "1.2.4") wStore
    (by decide) (by decide) (by decide) (by decide)

/-- C1 counterexample: a distill run whose change-summary transformer
call fails raises, yet the observable document state afterwards differs
from the state before the operation (content, hash and version already
committed) while no version row exists — contradicting "on error the
document state observable afterwards equals the state before". -/
theorem distill_partial_write_counterexample :
    (distill_prd [.ok (str "# NEW"), .exn (str "boom")] wPrd (str "manual_sync") (str "t")
        wStore).1 = .exn (str "boom")
    ∧ (distill_prd [.ok (str "# NEW"), .exn (str "boom")] wPrd (str "manual_sync") (str "t")
        wStore).2.states ≠ wStore.states
    ∧ (distill_prd [.ok (str "# NEW"), .exn (str "boom")] wPrd (str "manual_sync") (str "t")
        wStore).2.versions = wStore.versions := by decide

/-! ### C5 — severity is stored, not validated -/

/-- The conflict parse loop on one well-formed line: a `CONFLICT|` line
with five pipe-free fields yields exactly the row with those fields
stored verbatim. -/
theorem conflict_row_of_line_eq (sid : Nat) (ctype sev sec desc sugg : Str)
    (h1 : '|' ∉ ctype) (h2 : '|' ∉ sev) (h3 : '|' ∉ sec) (h4 : '|' ∉ desc)
    (h5 : '|' ∉ sugg) :
    conflict_row_of_line sid
      (str "CONFLICT" ++ ('|' :: (ctype ++ ('|' :: (sev ++ ('|' :: (sec ++ ('|' ::
        (desc ++ ('|' :: sugg))))))))))
      = some { prd_state_id := sid, conflict_type := ctype, severity := sev,
               section_affected := sec, description := desc,
               suggested_resolution := sugg, resolved := false } := by
  have hpre : ∀ x : Str, str "CONFLICT" ++ ('|' :: x) = str "CONFLICT|" ++ x := by
    intro x
    rw [show str "CONFLICT|" = str "CONFLICT" ++ ['|'] from by decide, List.append_assoc]
    rfl
  have hsw : pyStartsWithC (str "CONFLICT|")
      (str "CONFLICT" ++ ('|' :: (ctype ++ ('|' :: (sev ++ ('|' :: (sec ++ ('|' ::
        (desc ++ ('|' :: sugg)))))))))) = true := by
    rw [hpre]
    exact pyStartsWithC_append _ _
  rw [conflict_row_of_line, if_pos hsw,
    pySplitC_append_sep '|' (str "CONFLICT") _ (by decide),
    pySplitC_append_sep '|' ctype _ h1,
    pySplitC_append_sep '|' sev _ h2,
    pySplitC_append_sep '|' sec _ h3,
    pySplitC_append_sep '|' desc _ h4,
    pySplitC_of_not_mem '|' sugg h5]

/-- C5 (corrected): the conflict parse loop filters lines only by the
`CONFLICT|` marker and the minimum field count; the severity field —
here an arbitrary string `sev`, in particular any value outside the four
enum values — is persisted verbatim in the created row rather than
rejected at parse time. -/
theorem detect_conflicts_unvalidated_severity
    (ai : AiOracle) (prd_state : PRDState) (store : Store)
    (ctype sev sec desc sugg : Str)
    (hfields : ∀ f ∈ [ctype, sev, sec, desc, sugg], '|' ∉ f)
    (hcontent : prd_state.content ≠ [])
    (line : Str)
    (hline : line = str "CONFLICT" ++ ('|' :: (ctype ++ ('|' :: (sev ++ ('|' :: (sec ++
      ('|' :: (desc ++ ('|' :: sugg))))))))))
    (hstrip : pyStripC line = line)
    (hnl : '\n' ∉ line) :
    detect_conflicts (.ok line :: ai) prd_state store
      = (.ok ([{ prd_state_id := prd_state.id, conflict_type := ctype, severity := sev,
                 section_affected := sec, description := desc,
                 suggested_resolution := sugg, resolved := false }], ai),
         { store with conflicts := store.conflicts
             ++ [{ prd_state_id := prd_state.id, conflict_type := ctype, severity := sev,
                   section_affected := sec, description := desc,
                   suggested_resolution := sugg, resolved := false }] }) := by
  have hrow := conflict_row_of_line_eq prd_state.id ctype sev sec desc sugg
    (hfields ctype (by simp)) (hfields sev (by simp)) (hfields sec (by simp))
    (hfields desc (by simp)) (hfields sugg (by simp))
  rw [detect_conflicts, if_neg hcontent]
  simp only [callAi]
  rw [hstrip, pySplitC_of_not_mem '\n' line hnl]
  simp only [List.filterMap]
  rw [hline, hrow]

/-- Witness for `detect_conflicts_unvalidated_severity` with the
out-of-enum severity `"banana"`. -/
theorem detect_conflicts_unvalidated_severity_witness :
    detect_conflicts [.ok (str "CONFLICT" ++ ('|' :: (str "other" ++ ('|' :: (str "banana" ++
        ('|' :: (str "MVP" ++ ('|' :: (str "desc" ++ ('|' :: str "fix"))))))))))] wPrd wStore
      = (.ok ([{ prd_state_id := wPrd.id, conflict_type := str "other",
                 severity := str "banana", section_affected := str "MVP",
                 description := str "desc", suggested_resolution := str "fix",
                 resolved := false }], []),
         { wStore with conflicts := wStore.conflicts
             ++ [{ prd_state_id := wPrd.id, conflict_type := str "other",
                   severity := str "banana", section_affected := str "MVP",
                   description := str "desc", suggested_resolution := str "fix",
                   resolved := false }] }) :=
  detect_conflicts_unvalidated_severity [] wPrd wStore
    (str "other") (str "banana") (str "MVP") (str "desc") (str "fix")
    (by decide) (by decide) _ rfl (by decide) (by decide)

/-- C5 counterexample: a conflict line with severity `"banana"` — not
one of {low, medium, high, critical} — is not skipped: one
`PRDConflict` row is created and stores `"banana"`. -/
theorem severity_unvalidated_counterexample :
    ((detect_conflicts [.ok (str "CONFLICT|other|banana|MVP|desc|fix")] wPrd wStore).2.conflicts.map
        (fun r => r.severity) = [str "banana"])
    ∧ str "banana" ∉ [str "low", str "medium", str "high", str "critical"] := by decide

/-! ### C7 — drift rows -/

/-- The drift parse loop on one well-formed line: a `DRIFT|` line with
five pipe-free fields `source, target, severity, section, description`
yields exactly one row with `section_affected` formatted
`"source↔target: section"`. -/
theorem drift_row_of_line_eq (sid : Nat) (src tgt sev sec desc : Str)
    (h1 : '|' ∉ src) (h2 : '|' ∉ tgt) (h3 : '|' ∉ sev) (h4 : '|' ∉ sec)
    (h5 : '|' ∉ desc) :
    drift_row_of_line sid
      (str "DRIFT" ++ ('|' :: (src ++ ('|' :: (tgt ++ ('|' :: (sev ++ ('|' :: (sec ++
        ('|' :: desc))))))))))
      = some { prd_state_id := sid,
               conflict_type := if containsSub (str "version") (pyLowerC sec)
                 then str "version_mismatch" else str "other",
               severity := sev,
               section_affected := src ++ str "↔" ++ tgt ++ str ": " ++ sec,
               description := desc,
               suggested_resolution := str "Sync " ++ tgt ++ str " from " ++ src,
               resolved := false } := by
  have hpre : ∀ x : Str, str "DRIFT" ++ ('|' :: x) = str "DRIFT|" ++ x := by
    intro x
    rw [show str "DRIFT|" = str "DRIFT" ++ ['|'] from by decide, List.append_assoc]
    rfl
  have hsw : pyStartsWithC (str "DRIFT|")
      (str "DRIFT" ++ ('|' :: (src ++ ('|' :: (tgt ++ ('|' :: (sev ++ ('|' :: (sec ++
        ('|' :: desc)))))))))) = true := by
    rw [hpre]
    exact pyStartsWithC_append _ _
  rw [drift_row_of_line, if_pos hsw,
    pySplitC_append_sep '|' (str "DRIFT") _ (by decide),
    pySplitC_append_sep '|' src _ h1,
    pySplitC_append_sep '|' tgt _ h2,
    pySplitC_append_sep '|' sev _ h3,
    pySplitC_append_sep '|' sec _ h4,
    pySplitC_of_not_mem '|' desc h5]

/-- C7: with the three document fetches succeeding, a transformer
response of two well-formed drift lines produces exactly two
`PRDConflict` rows, both owned by the canonical PRD state, each with
`section_affected = "source↔target: section"` and the line's severity
and description; and the `NO_DRIFT` sentinel response produces zero rows
and an empty returned list. -/
theorem detect_drift_rows (fetch : Str → Str → PyResult Str) (ai : AiOracle)
    (repo : Str) (store : Store) (pcontent rcontent icontent : Str)
    (hfp : fetch repo (str "PRD.md") = .ok pcontent)
    (hfr : fetch repo (str "README.md") = .ok rcontent)
    (hfi : fetch repo (str "IP.md") = .ok icontent)
    (src1 tgt1 sev1 sec1 desc1 src2 tgt2 sev2 sec2 desc2 : Str)
    (hfields : ∀ f ∈ [src1, tgt1, sev1, sec1, desc1, src2, tgt2, sev2, sec2, desc2],
      '|' ∉ f)
    (line1 line2 response : Str)
    (hl1 : line1 = str "DRIFT" ++ ('|' :: (src1 ++ ('|' :: (tgt1 ++ ('|' :: (sev1 ++
      ('|' :: (sec1 ++ ('|' :: desc1))))))))))
    (hl2 : line2 = str "DRIFT" ++ ('|' :: (src2 ++ ('|' :: (tgt2 ++ ('|' :: (sev2 ++
      ('|' :: (sec2 ++ ('|' :: desc2))))))))))
    (hresp : response = line1 ++ ('\n' :: line2))
    (hstrip : pyStripC response = response)
    (hnl1 : '\n' ∉ line1) (hnl2 : '\n' ∉ line2) :
    (∃ r1 r2 : PRDConflictRow,
      detect_document_drift fetch (.ok response :: ai) repo store
        = (.ok ([r1, r2], ai),
           { (get_or_create_document_state repo (str "IP.md") (str "ip")
               (get_or_create_document_state repo (str "README.md") (str "readme")
                 (get_or_create_prd_state repo (str "PRD.md") store).2).2).2 with
             conflicts :=
               (get_or_create_document_state repo (str "IP.md") (str "ip")
                 (get_or_create_document_state repo (str "README.md") (str "readme")
                   (get_or_create_prd_state repo (str "PRD.md") store).2).2).2.conflicts
               ++ [r1, r2] })
      ∧ r1.prd_state_id = (get_or_create_prd_state repo (str "PRD.md") store).1.id
      ∧ r1.section_affected = src1 ++ str "↔" ++ tgt1 ++ str ": " ++ sec1
      ∧ r1.severity = sev1 ∧ r1.description = desc1
      ∧ r2.prd_state_id = (get_or_create_prd_state repo (str "PRD.md") store).1.id
      ∧ r2.section_affected = src2 ++ str "↔" ++ tgt2 ++ str ": " ++ sec2
      ∧ r2.severity = sev2 ∧ r2.description = desc2)
    ∧ (∀ rest : AiOracle,
        detect_document_drift fetch (.ok (str "NO_DRIFT") :: rest) repo store
          = (.ok ([], rest),
             (get_or_create_document_state repo (str "IP.md") (str "ip")
               (get_or_create_document_state repo (str "README.md") (str "readme")
                 (get_or_create_prd_state repo (str "PRD.md") store).2).2).2)) := by
  have hrow1 := drift_row_of_line_eq
    (get_or_create_prd_state repo (str "PRD.md") store).1.id src1 tgt1 sev1 sec1 desc1
    (hfields src1 (by simp)) (hfields tgt1 (by simp)) (hfields sev1 (by simp))
    (hfields sec1 (by simp)) (hfields desc1 (by simp))
  have hrow2 := drift_row_of_line_eq
    (get_or_create_prd_state repo (str "PRD.md") store).1.id src2 tgt2 sev2 sec2 desc2
    (hfields src2 (by simp)) (hfields tgt2 (by simp)) (hfields sev2 (by simp))
    (hfields sec2 (by simp)) (hfields desc2 (by simp))
  constructor
  · refine ⟨{ prd_state_id := (get_or_create_prd_state repo (str "PRD.md") store).1.id,
              conflict_type := if containsSub (str "version") (pyLowerC sec1)
                then str "version_mismatch" else str "other",
              severity := sev1,
              section_affected := src1 ++ str "↔" ++ tgt1 ++ str ": " ++ sec1,
              description := desc1,
              suggested_resolution := str "Sync " ++ tgt1 ++ str " from " ++ src1,
              resolved := false },
            { prd_state_id := (get_or_create_prd_state repo (str "PRD.md") store).1.id,
              conflict_type := if containsSub (str "version") (pyLowerC sec2)
                then str "version_mismatch" else str "other",
              severity := sev2,
              section_affected := src2 ++ str "↔" ++ tgt2 ++ str ": " ++ sec2,
              description := desc2,
              suggested_resolution := str "Sync " ++ tgt2 ++ str " from " ++ src2,
              resolved := false },
            ?_, rfl, rfl, rfl, rfl, rfl, rfl, rfl, rfl⟩
    unfold detect_document_drift
    rw [hfp, hfr, hfi]
    simp only [callAi]
    rw [hstrip, hresp, pySplitC_append_sep '\n' line1 line2 hnl1,
      pySplitC_of_not_mem '\n' line2 hnl2]
    simp only [List.filterMap]
    rw [hl1, hrow1, hl2, hrow2]
  · intro rest
    unfold detect_document_drift
    rw [hfp, hfr, hfi]
    simp only [callAi]
    have hparse : ∀ sid : Nat,
        (pySplitC '\n' (pyStripC (str "NO_DRIFT"))).filterMap (drift_row_of_line sid)
          = [] := by
      intro sid
      rw [show pyStripC (str "NO_DRIFT") = str "NO_DRIFT" from by decide,
        show pySplitC '\n' (str "NO_DRIFT") = [str "NO_DRIFT"] from by decide]
      simp [drift_row_of_line,
        show pyStartsWithC (str "DRIFT|") (str "NO_DRIFT") = false from by decide]
    simp [hparse]

/-- Witness for `detect_drift_rows` (sentinel branch, with every
hypothesis discharged on concrete drift lines). -/
theorem detect_drift_rows_witness :
    detect_document_drift (fun _ _ => .ok (str "# Content")) [.ok (str "NO_DRIFT")]
        (str "test/repo") emptyStore
      = (.ok ([], []),
         (get_or_create_document_state (str "test/repo") (str "IP.md") (str "ip")
           (get_or_create_document_state (str "test/repo") (str "README.md") (str "readme")
             (get_or_create_prd_state (str "test/repo") (str "PRD.md") emptyStore).2).2).2) :=
  (detect_drift_rows (fun _ _ => .ok (str "# Content")) [] (str "test/repo") emptyStore
    (str "# Content") (str "# Content") (str "# Content") rfl rfl rfl
    (str "PRD") (str "README") (str "medium") (str "Features") (str "drifted")
    (str "PRD") (str "IP") (str "low") (str "Version") (str "differs")
    (by decide)
    (str "DRIFT|PRD|README|medium|Features|drifted")
    (str "DRIFT|PRD|IP|low|Version|differs")
    (str "DRIFT|PRD|README|medium|Features|drifted\nDRIFT|PRD|IP|low|Version|differs")
    (by decide) (by decide) (by decide) (by decide) (by decide) (by decide)).2 []

/-! ### C8 — export creates exactly one record -/

/-- C8: for every document state and every transformer response,
`export_to_issues` appends exactly one `PRDExport` row; its
`github_refs` are exactly the references returned by the successful sink
calls (one call per parsed story line, failures skipped without aborting
the rest) and `items_created` is their count; zero parsed stories still
yields the one record. -/
theorem export_always_one_record (response : Str) (ai : AiOracle) (sink : SinkOracle)
    (prd_state : PRDState) (store : Store) :
    export_to_issues (.ok response :: ai) sink prd_state store
      = (.ok
          ({ prd_state_id := prd_state.id,
             prd_version := store.latestVersion prd_state.id,
             export_type := str "issues",
             items_created :=
               ((sink.take ((pySplitC '\n' (pyStripC response)).filterMap
                   story_of_line).length).filterMap
                 (fun r => match r with | .ok n => some n | .exn _ => none)).length,
             github_refs :=
               (sink.take ((pySplitC '\n' (pyStripC response)).filterMap
                   story_of_line).length).filterMap
                 (fun r => match r with | .ok n => some n | .exn _ => none),
             stories_parsed := countSub (str "STORY|") response }, ai,
           sink.drop ((pySplitC '\n' (pyStripC response)).filterMap story_of_line).length),
         { store with exports := store.exports
             ++ [{ prd_state_id := prd_state.id,
                   prd_version := store.latestVersion prd_state.id,
                   export_type := str "issues",
                   items_created :=
                     ((sink.take ((pySplitC '\n' (pyStripC response)).filterMap
                         story_of_line).length).filterMap
                       (fun r => match r with | .ok n => some n | .exn _ => none)).length,
                   github_refs :=
                     (sink.take ((pySplitC '\n' (pyStripC response)).filterMap
                         story_of_line).length).filterMap
                       (fun r => match r with | .ok n => some n | .exn _ => none),
                   stories_parsed := countSub (str "STORY|") response }] }) := by
  unfold export_to_issues
  simp only [callAi]
  rw [create_issues_loop_eq]
